import Mathlib

/-!
Verification development for the AutoShorts run-orchestration engine
(`backend/app/orchestrator/fsm.py` and `backend/app/tasks/*.py`).

Python dicts that the code uses as string-keyed maps are embedded as
insertion-ordered association lists (`List (String × α)`) with the usual
`dict.get` / `dict.__setitem__` / `dict.update` semantics.  Celery tasks are
embedded as pure state-transformers: external vendor clients (TTS, image,
music generation) are passed in as function parameters, the Redis state store
is an association list threaded through the functions, and exceptions are
`Except`.
-/

/-- `d.get(k)` on a Python dict embedded as an insertion-ordered assoc list. -/
def dictGet {α : Type} (d : List (String × α)) (k : String) : Option α :=
  match d with
  | [] => none
  | (k', v) :: rest => if k' = k then some v else dictGet rest k

/-- `d[k] = v` on a Python dict: replaces the value in place if the key is
present, otherwise appends the new binding. -/
def dictSet {α : Type} (d : List (String × α)) (k : String) (v : α) :
    List (String × α) :=
  match d with
  | [] => [(k, v)]
  | (k', v') :: rest => if k' = k then (k, v) :: rest else (k', v') :: dictSet rest k v

/-- `d.update(u)` on a Python dict: sets every binding of `u` in order. -/
def dictUpdate {α : Type} (d upd : List (String × α)) : List (String × α) :=
  upd.foldl (fun acc kv => dictSet acc kv.1 kv.2) d

/-- Values stored in the free-form FSM `metadata` dict (retry counters are
ints, error messages and retry reasons are strings). -/
inductive MetaVal where
  | str (s : String)
  | int (n : Nat)
deriving DecidableEq, Repr

abbrev Metadata := List (String × MetaVal)

/-- `metadata.get(key, 0)` for an integer counter (`plan.py` line 261,
`qa.py` line 193). -/
def metaNat (d : Metadata) (k : String) : Nat :=
  match dictGet d k with
  | some (MetaVal.int n) => n
  | _ => 0

/-- `RunState` enum, `fsm.py` lines 14-25. -/
inductive RunState where
  | INIT
  | PLOT_GENERATION
  | PLOT_REVIEW
  | ASSET_GENERATION
  | ASSET_REVIEW
  | LAYOUT_REVIEW
  | RENDERING
  | QA
  | END
  | FAILED
deriving DecidableEq, Repr

/-- Attribute lookup `RunState.<name>` on the enum class: `some` for the ten
members defined in `fsm.py` lines 14-25, `none` (an `AttributeError` in
Python) for any other name.  `recover.py` lines 40 and 74 look up the
undefined attributes `RECOVER` and `PLOT_PLANNING`. -/
def runStateAttr (name : String) : Option RunState :=
  match name with
  | "INIT" => some RunState.INIT
  | "PLOT_GENERATION" => some RunState.PLOT_GENERATION
  | "PLOT_REVIEW" => some RunState.PLOT_REVIEW
  | "ASSET_GENERATION" => some RunState.ASSET_GENERATION
  | "ASSET_REVIEW" => some RunState.ASSET_REVIEW
  | "LAYOUT_REVIEW" => some RunState.LAYOUT_REVIEW
  | "RENDERING" => some RunState.RENDERING
  | "QA" => some RunState.QA
  | "END" => some RunState.END
  | "FAILED" => some RunState.FAILED
  | _ => none

/-- The methods defined on class `FSM` (`fsm.py` lines 28-162).  `recover.py`
line 45 calls `fsm.get_retry_state()`, which is not among them. -/
def fsmMethods : List String :=
  ["can_transition_to", "transition_to", "fail", "retry_from_qa", "is_terminal"]

/-- `FSM.TRANSITIONS`, `fsm.py` lines 39-50. -/
def TRANSITIONS (s : RunState) : List RunState :=
  match s with
  | RunState.INIT => [RunState.PLOT_GENERATION, RunState.FAILED]
  | RunState.PLOT_GENERATION =>
      [RunState.PLOT_REVIEW, RunState.ASSET_GENERATION, RunState.FAILED]
  | RunState.PLOT_REVIEW =>
      [RunState.ASSET_GENERATION, RunState.PLOT_GENERATION, RunState.FAILED]
  | RunState.ASSET_GENERATION =>
      [RunState.ASSET_REVIEW, RunState.LAYOUT_REVIEW, RunState.RENDERING, RunState.FAILED]
  | RunState.ASSET_REVIEW =>
      [RunState.LAYOUT_REVIEW, RunState.RENDERING, RunState.ASSET_GENERATION, RunState.FAILED]
  | RunState.LAYOUT_REVIEW =>
      [RunState.RENDERING, RunState.ASSET_GENERATION, RunState.FAILED]
  | RunState.RENDERING => [RunState.QA, RunState.FAILED]
  | RunState.QA => [RunState.END, RunState.PLOT_GENERATION, RunState.FAILED]
  | RunState.END => []
  | RunState.FAILED => [RunState.PLOT_GENERATION, RunState.PLOT_REVIEW]

/-- FSM snapshot, `fsm.py` lines 52-63: `run_id`, `current_state`, `history`
(every state visited, in order) and the free-form `metadata` dict. -/
structure FSM where
  run_id : String
  current_state : RunState
  history : List RunState
  metadata : Metadata
deriving DecidableEq, Repr

/-- `FSM.__init__`, `fsm.py` lines 52-63. -/
def FSM.mkRun (run_id : String) (initial_state : RunState := RunState.INIT) : FSM :=
  { run_id := run_id
    current_state := initial_state
    history := [initial_state]
    metadata := [] }

/-- `FSM.can_transition_to`, `fsm.py` lines 67-78. -/
def FSM.can_transition_to (fsm : FSM) (target_state : RunState) : Bool :=
  target_state ∈ TRANSITIONS fsm.current_state

/-- Result of one `transition_to` call: the returned bool, the (possibly
mutated) in-memory FSM, and the list of Redis writes performed by
`update_fsm` (`fsm.py` line 127 / lines 222-236), as (key, snapshot) pairs. -/
structure TransResult where
  ok : Bool
  fsm : FSM
  storeWrites : List (String × FSM)
deriving DecidableEq, Repr

/-- `FSM.transition_to`, `fsm.py` lines 80-129.  The optional guard callable
is embedded as `Option Bool` (`none` = no guard supplied, `some b` = a guard
returning `b`); the optional metadata argument as `Option Metadata`
(`none` also covers a falsy empty dict, for which line 118 skips the update).
On an invalid edge (line 98) or a failing guard (line 106) the call returns
`False` with no mutation and no Redis write; on success it sets
`current_state`, appends the target to `history`, merges the metadata, and
synchronously writes the new snapshot to Redis under key `fsm:<run_id>`. -/
def FSM.transition_to (fsm : FSM) (target_state : RunState)
    (guard : Option Bool := none) (metadata : Option Metadata := none) :
    TransResult :=
  if ¬ fsm.can_transition_to target_state then
    { ok := false, fsm := fsm, storeWrites := [] }
  else if guard = some false then
    { ok := false, fsm := fsm, storeWrites := [] }
  else
    let fsm' : FSM :=
      { fsm with
        current_state := target_state
        history := fsm.history ++ [target_state]
        metadata :=
          match metadata with
          | some m => dictUpdate fsm.metadata m
          | none => fsm.metadata }
    { ok := true, fsm := fsm', storeWrites := [("fsm:" ++ fsm.run_id, fsm')] }

/-- `FSM.fail`, `fsm.py` lines 131-139. -/
def FSM.fail (fsm : FSM) (error_message : String) : TransResult :=
  fsm.transition_to RunState.FAILED none (some [("error", MetaVal.str error_message)])

/-- `FSM.retry_from_qa`, `fsm.py` lines 141-155. -/
def FSM.retry_from_qa (fsm : FSM) : TransResult :=
  if fsm.current_state ≠ RunState.QA then
    { ok := false, fsm := fsm, storeWrites := [] }
  else
    fsm.transition_to RunState.PLOT_GENERATION none
      (some [("retry_reason", MetaVal.str "QA failed, regenerating plot")])

/-- `FSM.is_terminal`, `fsm.py` lines 157-159. -/
def FSM.is_terminal (fsm : FSM) : Bool :=
  fsm.current_state ∈ [RunState.END, RunState.FAILED]

/-- The Redis state store: one pickled FSM snapshot per `fsm:<run_id>` key
(TTL expiry is not modelled). -/
abbrev Store := List (String × FSM)

/-- `r.setex(key, ttl, data)`: overwrite-or-insert. -/
def setexStore (store : Store) (key : String) (fsm : FSM) : Store :=
  dictSet store key fsm

/-- Apply the Redis writes of a `TransResult` to a store. -/
def applyWrites (store : Store) (writes : List (String × FSM)) : Store :=
  writes.foldl (fun s kv => setexStore s kv.1 kv.2) store

/-- `transition_to` with the Redis store threaded through (`update_fsm`,
`fsm.py` lines 222-236, on the success path). -/
def transitionToStore (fsm : FSM) (target : RunState) (guard : Option Bool)
    (metadata : Option Metadata) (store : Store) : Bool × FSM × Store :=
  let r := fsm.transition_to target guard metadata
  (r.ok, r.fsm, applyWrites store r.storeWrites)

/-- The process-local `_fsm_registry` cache, `fsm.py` line 166. -/
abbrev Registry := List (String × FSM)

/-- `get_fsm`, `fsm.py` lines 169-198.  The Redis read `r.get(f"fsm:...")`
together with unpickling is embedded as `Except String (Option FSM)`:
`.error` = the `try` block raised (Redis unreachable), `.ok none` = Redis
answered but holds no snapshot for the run, `.ok (some fsm)` = the stored
snapshot.  Returns the loaded FSM (or `None`) and the updated in-memory
registry (line 187 caches a successful load). -/
def get_fsm (run_id : String) (redisRead : Except String (Option FSM))
    (registry : Registry) : Option FSM × Registry :=
  match redisRead with
  | Except.ok (some fsm) => (some fsm, dictSet registry run_id fsm)
  | Except.ok none =>
      match dictGet registry run_id with
      | some fsm => (some fsm, registry)
      | none => (none, registry)
  | Except.error _ =>
      match dictGet registry run_id with
      | some fsm => (some fsm, registry)
      | none => (none, registry)

/-- `register_fsm`, `fsm.py` lines 201-219: saves to both the in-memory
registry and Redis. -/
def register_fsm (fsm : FSM) (registry : Registry) (store : Store) :
    Registry × Store :=
  (dictSet registry fsm.run_id fsm, setexStore store ("fsm:" ++ fsm.run_id) fsm)

/-!
## Shared layout artifact (`layout.json`)

The unified layout artifact that the Plan stage produces and the producer
tasks and the director annotate.  Only the fields that the embedded code
paths read or write are modelled.  `volume` (a Python float, 0.5 / 0.3) is
embedded as `Rat`.
-/

/-- One subtitle/dialogue line of a scene (`texts` entries). -/
structure TextLine where
  line_id : String
  char_id : String
  text : String
  audio_url : Option String
  start_ms : Nat
deriving DecidableEq, Repr

/-- One image slot of a scene (`images` entries). -/
structure ImageSlot where
  slot_id : String
  image_url : Option String
deriving DecidableEq, Repr

/-- One sound-effect slot of a scene (`sfx` entries, `composer.py` 97-101). -/
structure SfxSlot where
  sfx_id : String
  audio_url : Option String
deriving DecidableEq, Repr

/-- One scene of the layout. -/
structure Scene where
  scene_id : String
  duration_ms : Nat
  images : List ImageSlot
  texts : List TextLine
  sfx : List SfxSlot
deriving DecidableEq, Repr

/-- The `global_bgm` object (`composer.py` 73-84, `director.py` 124-137). -/
structure GlobalBgm where
  bgm_id : String
  genre : String
  mood : String
  audio_url : String
  start_ms : Nat
  duration_ms : Nat
  volume : Rat
deriving DecidableEq, Repr

/-- The `timeline` object; `none` models a missing `"timeline"` key
(`layout.get("timeline", {})`). -/
structure Timeline where
  total_duration_ms : Nat
deriving DecidableEq, Repr

/-- The layout artifact.  An absent `"scenes"` key and an empty scene list
behave identically everywhere in the embedded code (`layout.get("scenes",
[])`), so both are the empty list. -/
structure Layout where
  scenes : List Scene
  global_bgm : Option GlobalBgm
  timeline : Option Timeline
deriving DecidableEq, Repr

/-- The per-run artifact directory, as a map from path to layout-file
content.  Only layout JSON files are modelled. -/
abbrev FileSys := List (String × Layout)

/-!
## Fan-in merger (`director.py` lines 82-141)

The barrier continuation receives the list of producer result records and
re-applies each producer's updates to the layout loaded from `json_path`.
-/

/-- One entry of a designer result's `images` list (`designer.py` 662-666). -/
structure ImageResult where
  scene_id : String
  slot_id : String
  image_url : String
deriving DecidableEq, Repr

/-- One entry of a voice result's `voice` list (`voice.py` 175-180). -/
structure VoiceResult where
  scene_id : String
  line_id : String
  audio_url : String
  audio_duration_ms : Option Nat
deriving DecidableEq, Repr

/-- One entry of a composer result's `audio` list (`composer.py` 88-92);
`id` is optional because `director.py` line 126 reads it with
`audio_result.get("id", "global_bgm")`. -/
structure AudioResult where
  kind : String
  id : Option String
  path : String
deriving DecidableEq, Repr

/-- A producer result record as dispatched on by `director.py` lines 82-119
via `result["agent"]`; `skipped` covers a falsy result or one without an
`"agent"` key (lines 83-84). -/
inductive AssetResult where
  | designer (images : List ImageResult)
  | voice (voices : List VoiceResult)
  | composer (audio : List AudioResult)
  | skipped
deriving DecidableEq, Repr

/-- `director.py` lines 98-101: overwrite the image slot matching the
result's `slot_id`. -/
def updateImageSlot (r : ImageResult) (slot : ImageSlot) : ImageSlot :=
  if slot.slot_id = r.slot_id then { slot with image_url := some r.image_url }
  else slot

/-- `director.py` lines 96-101: in the scene matching the result's
`scene_id`, update the matching slot. -/
def updateSceneImages (r : ImageResult) (scene : Scene) : Scene :=
  if scene.scene_id = r.scene_id then
    { scene with images := scene.images.map (updateImageSlot r) }
  else scene

/-- `director.py` lines 89-101: apply one designer image result. -/
def applyImageResult (layout : Layout) (r : ImageResult) : Layout :=
  { layout with scenes := layout.scenes.map (updateSceneImages r) }

/-- `director.py` lines 113-116: overwrite the text line matching the
result's `line_id`. -/
def updateTextLine (r : VoiceResult) (line : TextLine) : TextLine :=
  if line.line_id = r.line_id then { line with audio_url := some r.audio_url }
  else line

/-- `director.py` lines 110-116: in the scene matching the result's
`scene_id`, update the matching text line. -/
def updateSceneTexts (r : VoiceResult) (scene : Scene) : Scene :=
  if scene.scene_id = r.scene_id then
    { scene with texts := scene.texts.map (updateTextLine r) }
  else scene

/-- `director.py` lines 104-116: apply one voice result. -/
def applyVoiceResult (layout : Layout) (r : VoiceResult) : Layout :=
  { layout with scenes := layout.scenes.map (updateSceneTexts r) }

/-- `director.py` lines 120-137: for a `"bgm"` entry, create `global_bgm`
(with `duration_ms` taken from the timeline, default 30000, and volume 0.5)
if it is absent, else overwrite only its `audio_url`. -/
def applyAudioResult (layout : Layout) (a : AudioResult) : Layout :=
  if a.kind = "bgm" then
    match layout.global_bgm with
    | none =>
        { layout with
          global_bgm := some
            { bgm_id := a.id.getD "global_bgm"
              genre := "ambient"
              mood := "cinematic"
              audio_url := a.path
              start_ms := 0
              duration_ms := (layout.timeline.map Timeline.total_duration_ms).getD 30000
              volume := (5 : Rat) / 10 } }
    | some bgm => { layout with global_bgm := some { bgm with audio_url := a.path } }
  else layout

/-- `director.py` lines 82-137: apply one producer result record. -/
def applyAssetResult (layout : Layout) (r : AssetResult) : Layout :=
  match r with
  | AssetResult.designer images => images.foldl applyImageResult layout
  | AssetResult.voice voices => voices.foldl applyVoiceResult layout
  | AssetResult.composer audio => audio.foldl applyAudioResult layout
  | AssetResult.skipped => layout

/-- The fan-in merge loop, `director.py` lines 82-137: fold the producer
result records (in arrival-list order) over the loaded layout. -/
def directorMerge (layout : Layout) (asset_results : List AssetResult) : Layout :=
  asset_results.foldl applyAssetResult layout

/-- `director.py` lines 53-54 and 139-141: load the layout from `json_path`,
apply the merge loop, and save it back to `json_path`. -/
def director_task_merge (asset_results : List AssetResult) (json_path : String)
    (fs : FileSys) : Except String FileSys :=
  match dictGet fs json_path with
  | none => Except.error "FileNotFoundError"
  | some layout => Except.ok (dictSet fs json_path (directorMerge layout asset_results))

/-!
## Producer tasks (`voice.py`, `composer.py`, `designer.py`)

Each producer loads the shared layout from `json_path`, mutates its own part
of it, saves it back to `json_path`, and returns a self-contained result
record.  Vendor generation clients are abstracted as function parameters.
-/

/-- The double-quote character (written via its code point). -/
def quoteChar : Char := Char.ofNat 34

/-- The single-quote character (written via its code point). -/
def apostChar : Char := Char.ofNat 39

/-- Python `s.strip(chars)`: remove leading and trailing characters drawn
from `cs`. -/
def stripCharSet (cs : List Char) (s : String) : String :=
  String.mk (((s.data.dropWhile (fun c => c ∈ cs)).reverse.dropWhile
    (fun c => c ∈ cs)).reverse)

/-- Vendor-facing parameters of `voice_task`: `genSpeech` abstracts
`client.generate_speech(text, voice_id, emotion, output_filename)` (`voice.py`
lines 40-160; the voice-profile/emotion selection only affects which voice the
vendor uses) as a map from (tts text, output filename) to the returned audio
path; `measureDuration` abstracts the MoviePy duration probe (`voice.py`
lines 162-170), `none` meaning the probe failed. -/
structure VoiceGenEnv where
  genSpeech : String → String → String
  measureDuration : String → Option Nat

/-- `voice.py` lines 135-182: generate TTS for one text line, set its
`audio_url` in the layout, and record the result. -/
def voiceProcessLine (env : VoiceGenEnv) (run_id scene_id : String)
    (line : TextLine) : TextLine × VoiceResult :=
  let tts_text := stripCharSet [quoteChar] line.text
  let audio_path := env.genSpeech tts_text
    ("app/data/outputs/" ++ run_id ++ "/audio/" ++ scene_id ++ "_" ++ line.line_id ++ ".mp3")
  let dur := env.measureDuration audio_path
  ({ line with audio_url := some audio_path },
   { scene_id := scene_id, line_id := line.line_id, audio_url := audio_path,
     audio_duration_ms := dur })

/-- `voice.py` lines 132-182: the per-scene TTS loop. -/
def voiceProcessScene (env : VoiceGenEnv) (run_id : String) (scene : Scene) :
    Scene × List VoiceResult :=
  let processed := scene.texts.map (voiceProcessLine env run_id scene.scene_id)
  ({ scene with texts := processed.map Prod.fst }, processed.map Prod.snd)

/-- `voice.py` lines 185-204: stretch each scene's duration to its longest
measured TTS clip plus 500 ms padding; keep the original duration when no
clip of the scene has a measured duration. -/
def voiceUpdateDuration (results : List VoiceResult) (scene : Scene) : Scene :=
  let ds := (results.filter (fun r => r.scene_id = scene.scene_id)).filterMap
    (fun r => r.audio_duration_ms)
  match ds with
  | [] => scene
  | d :: rest => { scene with duration_ms := rest.foldl Nat.max d + 500 }

/-- The layout mutation performed by `voice_task` (`voice.py` lines 131-204),
together with the returned `voice` result list. -/
def voiceLayoutUpdate (env : VoiceGenEnv) (run_id : String) (layout : Layout) :
    Layout × List VoiceResult :=
  let processed := layout.scenes.map (voiceProcessScene env run_id)
  let results := (processed.map Prod.snd).flatten
  let scenes := (processed.map Prod.fst).map (voiceUpdateDuration results)
  ({ layout with scenes := scenes }, results)

/-- `voice_task`, `voice.py` lines 16-223: load the layout from `json_path`
(line 37), run the TTS loops, save the updated layout back to `json_path`
(lines 206-208), and return the result record. -/
def voice_task (env : VoiceGenEnv) (run_id json_path : String) (fs : FileSys) :
    Except String (FileSys × List VoiceResult) :=
  match dictGet fs json_path with
  | none => Except.error "FileNotFoundError"
  | some layout =>
      let (layout', results) := voiceLayoutUpdate env run_id layout
      Except.ok (dictSet fs json_path layout', results)

/-- The layout mutation performed by `composer_task` (`composer.py` lines
53-101): `bgm_path` abstracts `client.generate_music(...)` (lines 41-70);
`music_genre` is `spec.get("music_genre", "ambient")`.  Creates `global_bgm`
(volume 0.3) if absent, else overwrites its `audio_url`; then points every
scene's sfx entries at the placeholder file. -/
def composerLayoutUpdate (bgm_path music_genre : String) (layout : Layout) :
    Layout × List AudioResult :=
  let total := (layout.timeline.map Timeline.total_duration_ms).getD 30000
  let layout1 :=
    match layout.global_bgm with
    | none =>
        { layout with
          global_bgm := some
            { bgm_id := "global_bgm", genre := music_genre, mood := "cinematic"
              audio_url := bgm_path, start_ms := 0, duration_ms := total
              volume := (3 : Rat) / 10 } }
    | some bgm => { layout with global_bgm := some { bgm with audio_url := bgm_path } }
  let layout2 :=
    { layout1 with
      scenes := layout1.scenes.map fun scene =>
        { scene with
          sfx := scene.sfx.map fun s =>
            { s with audio_url := some "app/data/samples/placeholder_sfx.mp3" } } }
  (layout2, [{ kind := "bgm", id := some "global_bgm", path := bgm_path }])

/-- `composer_task`, `composer.py` lines 16-119: load the layout from
`json_path` (line 37), update BGM and sfx, save it back to `json_path`
(lines 103-105), and return the result record. -/
def composer_task (bgm_path music_genre : String) (run_id json_path : String)
    (fs : FileSys) : Except String (FileSys × List AudioResult) :=
  match dictGet fs json_path with
  | none => Except.error "FileNotFoundError"
  | some layout =>
      let (layout', results) := composerLayoutUpdate bgm_path music_genre layout
      Except.ok (dictSet fs json_path layout', results)

/-- Vendor-facing parameter of `designer_task`: `resolveImage scene_id
slot_id` abstracts the whole per-slot image pipeline of `designer.py` lines
357-658 (prompt building, reuse caches, vendor generation, vision validation,
cropping, background removal, and the stub-image fallback of lines 592-603,
which guarantees a path is always produced). -/
structure DesignerEnv where
  resolveImage : String → String → String

/-- `designer.py` lines 333-666 for one image slot: a slot whose `image_url`
was already populated by the json converter is kept as is and only reported
(lines 337-355); otherwise the resolved image path is written into the slot
(line 661) and reported (lines 662-666). -/
def designerProcessSlot (env : DesignerEnv) (scene_id : String)
    (slot : ImageSlot) : ImageSlot × ImageResult :=
  let existing := slot.image_url.getD ""
  if existing ≠ "" then
    (slot, { scene_id := scene_id, slot_id := slot.slot_id, image_url := existing })
  else
    let path := env.resolveImage scene_id slot.slot_id
    ({ slot with image_url := some path },
     { scene_id := scene_id, slot_id := slot.slot_id, image_url := path })

/-- The layout mutation performed by `designer_task`'s scene/slot loops
(`designer.py` lines 327-690). -/
def designerLayoutUpdate (env : DesignerEnv) (layout : Layout) :
    Layout × List ImageResult :=
  let processed := layout.scenes.map fun scene =>
    let slots := scene.images.map (designerProcessSlot env scene.scene_id)
    ({ scene with images := slots.map Prod.fst }, slots.map Prod.snd)
  ({ layout with scenes := processed.map Prod.fst },
   (processed.map Prod.snd).flatten)

/-- `designer_task`, `designer.py` lines 214-714: load the layout from
`json_path` (lines 242-243), run the image loops, save the updated layout
back to `json_path` (lines 692-694), and return the result record. -/
def designer_task (env : DesignerEnv) (run_id json_path : String)
    (fs : FileSys) : Except String (FileSys × List ImageResult) :=
  match dictGet fs json_path with
  | none => Except.error "FileNotFoundError"
  | some layout =>
      let (layout', results) := designerLayoutUpdate env layout
      Except.ok (dictSet fs json_path layout', results)

/-- Extract the resulting file system of a task run, or the original one if
the task raised. -/
def fsAfter {α : Type} (r : Except String (FileSys × α)) (orig : FileSys) :
    FileSys :=
  match r with
  | Except.ok (fs, _) => fs
  | Except.error _ => orig

/-!
## Content validator (`plan.py` lines 21-193, `_validate_plot_json`)

The three JSON files the validator loads are passed in already parsed (the
`json.JSONDecodeError` branch of lines 188-190 is therefore out of scope).
`int(x * 0.5)` is embedded as `x / 2` (0.5 is exact in binary) and
`int(x * 0.4)` as `x * 2 / 5` (equal to the Python value for all natural
counts, since the double nearest to 0.4 exceeds 2/5 by less than half an
ulp).  Python's `len` on `str` counts code points, as does `String.length`.
-/

/-- Substring test on character lists, by structural recursion (so that the
kernel can evaluate it on concrete inputs). -/
def listContainsSub (hay pat : List Char) : Bool :=
  match hay with
  | [] => pat.isEmpty
  | _ :: rest => pat.isPrefixOf hay || listContainsSub rest pat

/-- Python `pat in hay` on strings: substring test. -/
def containsSub (hay pat : String) : Bool :=
  listContainsSub hay.data pat.data

/-- Python `s.strip()`: remove leading and trailing whitespace.  (Implemented
over the character list rather than with `String.trim`, whose byte-position
recursion the kernel cannot unfold.) -/
def pyStrip (s : String) : String :=
  String.mk (((s.data.dropWhile Char.isWhitespace).reverse.dropWhile
    Char.isWhitespace).reverse)

/-- A scene object of `plot.json`.  `text` and `scene_id` are `none` when the
key is absent; `image_prompt` distinguishes an absent key (`none`), a JSON
null (`some none`) and a string (`some (some s)`), because lines 99-102 treat
the three differently; `background_img` is `none` when absent or null, and
`char_id_keys` collects the keys that start with `char` and end with `_id`
together with their string values (lines 80-82). -/
structure PlotScene where
  scene_id : Option String
  text : Option String
  image_prompt : Option (Option String)
  background_img : Option String
  char_id_keys : List (String × String)
deriving DecidableEq, Repr

/-- `plot.json`: the `scenes` list (an absent key and an empty list behave
identically in the validator). -/
structure PlotData where
  scenes : List PlotScene
deriving DecidableEq, Repr

/-- One character profile of `characters.json` (`name` defaults to `""` via
`c.get("name", "")`; `appearance` is `none` when absent). -/
structure CharProfile where
  char_id : String
  name : String
  appearance : Option String
deriving DecidableEq, Repr

/-- `characters.json`; `none` models a missing file or a file without a
`"characters"` key (both skip Validation 8, lines 164-165). -/
structure CharactersData where
  characters : List CharProfile
deriving DecidableEq, Repr

/-- The fields of the run spec dict that the validator reads, with the
defaults of lines 52-53 and 135 already applied. -/
structure RunSpec where
  mode : String
  num_cuts : Nat
  prompt : String
deriving DecidableEq, Repr

/-- Python truthiness of an optional string (missing, null and `""` are
falsy). -/
def optStrTruthy (s : Option String) : Bool :=
  match s with
  | some v => v ≠ ""
  | none => false

/-- `scene.get("scene_id", f"scene_{idx}")`. -/
def sceneIdOf (idx : Nat) (sc : PlotScene) : String :=
  sc.scene_id.getD ("scene_" ++ toString idx)

/-- Validation 2 (`plan.py` lines 60-67): scene count within
`[max(1, num_cuts/2), num_cuts*2 + 3]`. -/
def sceneCountErrors (numScenes num_cuts : Nat) : List String :=
  let min_scenes := Nat.max 1 (num_cuts / 2)
  let max_scenes := num_cuts * 2 + 3
  if numScenes < min_scenes ∨ numScenes > max_scenes then
    [s!"scenes 개수({numScenes})가 num_cuts({num_cuts}) 범위를 벗어남 (허용: {min_scenes}~{max_scenes})"]
  else []

/-- The contribution of one scene to `total_new_images` (`plan.py` lines
71-82). -/
def newImagesOfScene (mode : String) (sc : PlotScene) : Nat :=
  if mode = "general" ∨ mode = "ad" then
    match sc.image_prompt with
    | some (some s) => if s ≠ "" ∧ pyStrip s ≠ "" then 1 else 0
    | _ => 0
  else if mode = "story" then
    (if optStrTruthy sc.background_img then 1 else 0) +
      (sc.char_id_keys.filter (fun kv => kv.2 ≠ "")).length
  else 0

/-- Validation 2.5 (`plan.py` lines 69-86): at least `max(1,
int(num_cuts*0.4))` scenes must request a genuinely new image. -/
def newImageErrors (mode : String) (scenes : List PlotScene) (num_cuts : Nat) :
    List String :=
  let total_new_images := (scenes.map (newImagesOfScene mode)).sum
  let min_images := Nat.max 1 (num_cuts * 2 / 5)
  if total_new_images < min_images then
    [s!"새 이미지 요청이 너무 적음 ({total_new_images}개, 최소 {min_images}개 필요)"]
  else []

/-- Validation 3 (`plan.py` lines 88-108) for one scene: non-empty `text`,
plus the mode-specific required field. -/
def sceneFieldErrors (mode : String) (idx : Nat) (sc : PlotScene) : List String :=
  let scene_id := sceneIdOf idx sc
  let textErr :=
    match sc.text with
    | none => [scene_id ++ ": text 필드가 비어있음"]
    | some t => if pyStrip t = "" then [scene_id ++ ": text 필드가 비어있음"] else []
  let modeErr :=
    if mode = "general" ∨ mode = "ad" then
      match sc.image_prompt with
      | none => [scene_id ++ ": image_prompt 필드 없음"]
      | some none => [scene_id ++ ": image_prompt가 None"]
      | some (some _) => []
    else if mode = "story" then
      if optStrTruthy sc.background_img then []
      else [scene_id ++ ": background_img 필드가 비어있음"]
    else []
  textErr ++ modeErr

/-- Validation 4 (`plan.py` lines 110-115): `layout.json` structure. -/
def layoutStructErrors (layout : Layout) : List String :=
  (if layout.scenes = [] then ["layout.json에 scenes가 없거나 비어있음"] else []) ++
    (if layout.timeline = none then ["layout.json에 timeline 필드 없음"] else [])

/-- Validation 5 (`plan.py` lines 117-126): image-slot count of the layout
within the same tolerance band as the scene count. -/
def layoutSlotCountErrors (layout : Layout) (num_cuts : Nat) : List String :=
  let layout_image_count := (layout.scenes.map (fun sc => sc.images.length)).sum
  let min_layout_images := Nat.max 1 (num_cuts / 2)
  let max_layout_images := num_cuts * 2 + 3
  if layout_image_count < min_layout_images ∨ layout_image_count > max_layout_images then
    [s!"layout.json 이미지 슬롯 개수({layout_image_count})가 num_cuts({num_cuts}) 범위를 벗어남 (허용: {min_layout_images}~{max_layout_images})"]
  else []

/-- Validation 6 (`plan.py` lines 128-132): every layout scene must have
image slots. -/
def layoutSceneImageErrors (layout : Layout) : List String :=
  (layout.scenes.map fun sc =>
    if sc.images = [] then [sc.scene_id ++ ": layout.json에 images 슬롯이 없음"]
    else []).flatten

/-- `"\""`, written via its code point to keep the source ASCII-clean. -/
def quoteStr : String := String.mk [quoteChar]

/-- One text's test against the fallback patterns (`plan.py` line 141). -/
def isFallbackText (prompt text : String) : Bool :=
  containsSub text "번째 장면입니다" ∨ containsSub text (prompt ++ "의") ∨
    containsSub text (quoteStr ++ prompt ++ "의")

/-- Validation 7a (`plan.py` lines 138-145): fallback dummy-text detection. -/
def fallbackTextErrors (prompt : String) (all_texts : List String) : List String :=
  let fallback_pattern_count := (all_texts.filter (isFallbackText prompt)).length
  if fallback_pattern_count > 0 then
    [s!"폴백 더미 텍스트 감지됨 ({fallback_pattern_count}개 씬) - LLM 생성 실패"]
  else []

/-- Validation 7b (`plan.py` lines 147-153): identical / heavily duplicated
texts (`len(unique) < len(all) * 0.5` is exactly `2 * unique < all`). -/
def duplicateTextErrors (all_texts : List String) : List String :=
  if all_texts.length > 1 then
    let uniqueCount := all_texts.dedup.length
    if uniqueCount = 1 then
      [s!"모든 씬({all_texts.length}개)이 동일한 텍스트 반복 - LLM 생성 실패"]
    else if 2 * uniqueCount < all_texts.length then
      [s!"과도한 텍스트 중복 ({uniqueCount}/{all_texts.length} 고유) - LLM 생성 실패"]
    else []
  else []

/-- The cleaned text whose length Validation 7c measures (`plan.py` lines
158-160): `scene.get("text", "").strip()` then `.strip('"\'')`. -/
def cleanedText (sc : PlotScene) : String :=
  stripCharSet [quoteChar, apostChar] (pyStrip (sc.text.getD ""))

/-- Validation 7c (`plan.py` lines 155-162) for one scene: texts longer than
50 characters after cleaning are recorded as errors. -/
def textLengthErrorsOfScene (idx : Nat) (sc : PlotScene) : List String :=
  let scene_id := sceneIdOf idx sc
  let text_clean := cleanedText sc
  if text_clean.length > 50 then
    [s!"{scene_id}: text 길이 초과 ({text_clean.length}자, 권장 28자 이내)"]
  else []

/-- Validation 8 (`plan.py` lines 164-183): placeholder character names and
appearance descriptions. -/
def characterProfileErrors (characters : Option CharactersData) : List String :=
  match characters with
  | none => []
  | some cd =>
      let char_names := cd.characters.map CharProfile.name
      let dummy_char_count :=
        (char_names.filter fun n =>
          n.startsWith "캐릭터 " ∨ n.startsWith "Character ").length
      let nameErr :=
        if dummy_char_count > 0 then
          [s!"의미 없는 캐릭터 이름 감지됨 ({dummy_char_count}개) - LLM 생성 실패"]
        else []
      let char_appearances :=
        ((cd.characters.filterMap CharProfile.appearance).filter (fun a => a ≠ ""))
      let dummy_appearance_count :=
        (char_appearances.filter fun a =>
          a.startsWith "캐릭터 " ∧ containsSub a "의 외형").length
      let appErr :=
        if dummy_appearance_count > 0 then
          [s!"의미 없는 캐릭터 외형 감지됨 ({dummy_appearance_count}개) - LLM 생성 실패"]
        else []
      nameErr ++ appErr

/-- `_validate_plot_json`, `plan.py` lines 21-193: returns the accumulated
validation error messages, short-circuiting only on an empty scene list
(lines 56-58). -/
def validate_plot_json (plot : PlotData) (layout : Layout)
    (characters : Option CharactersData) (spec : RunSpec) : List String :=
  if plot.scenes = [] then ["plot.json에 scenes가 없거나 비어있음"]
  else
    sceneCountErrors plot.scenes.length spec.num_cuts ++
    newImageErrors spec.mode plot.scenes spec.num_cuts ++
    (plot.scenes.enum.map fun p => sceneFieldErrors spec.mode p.1 p.2).flatten ++
    layoutStructErrors layout ++
    layoutSlotCountErrors layout spec.num_cuts ++
    layoutSceneImageErrors layout ++
    fallbackTextErrors spec.prompt (plot.scenes.map fun sc => sc.text.getD "") ++
    duplicateTextErrors (plot.scenes.map fun sc => sc.text.getD "") ++
    (plot.scenes.enum.map fun p => textLengthErrorsOfScene p.1 p.2).flatten ++
    characterProfileErrors characters

/-!
## Plan stage retry loop (`plan.py` lines 256-290, 380-398)
-/

/-- `plan.py` line 260. -/
def plan_max_retries : Nat := 2

/-- Outcome of one execution of `plan_task`'s validation block. -/
inductive PlanOutcome where
  | proceed
  | retryTask
  | failed
deriving DecidableEq, Repr

/-- `plan.py` lines 256-290 plus the generic handler of lines 385-398: with
`validation_errors` produced by the validator, either proceed (empty list),
or — when the retry counter kept in FSM metadata is under `max_retries` —
bump the counter, persist the FSM via `register_fsm` (lines 270-272) and
raise a Celery retry (line 284), or raise `ValueError` (line 290), which the
generic `except` branch turns into `fsm.fail(str(e))` (line 390). -/
def planValidationStep (validation_errors : List String) (fsm : FSM)
    (registry : Registry) (store : Store) :
    PlanOutcome × FSM × Registry × Store :=
  if validation_errors = [] then (PlanOutcome.proceed, fsm, registry, store)
  else
    let retry_count := metaNat fsm.metadata "plot_retry_count"
    if retry_count < plan_max_retries then
      let fsm' :=
        { fsm with
          metadata := dictSet fsm.metadata "plot_retry_count"
            (MetaVal.int (retry_count + 1)) }
      let (registry', store') := register_fsm fsm' registry store
      (PlanOutcome.retryTask, fsm', registry', store')
    else
      let msg := "Plot validation failed after " ++ toString plan_max_retries ++
        " attempts: " ++ String.intercalate ", " validation_errors
      let r := fsm.fail msg
      (PlanOutcome.failed, r.fsm, registry, applyWrites store r.storeWrites)

/-- The Celery retry cycle for a validator that always returns
`validation_errors`: each `self.retry` re-executes the task body, which
reloads the FSM that `register_fsm` just persisted (threading the updated
FSM directly is equivalent).  Returns how many times the task body ran,
with the final FSM and store.  `fuel` bounds the recursion; any value of at
least `max_retries + 1` is enough. -/
def planRunFailing (validation_errors : List String) :
    Nat → FSM → Registry → Store → Nat × FSM × Store
  | 0, fsm, _, store => (0, fsm, store)
  | fuel + 1, fsm, registry, store =>
      match planValidationStep validation_errors fsm registry store with
      | (PlanOutcome.retryTask, fsm', registry', store') =>
          let rest := planRunFailing validation_errors fuel fsm' registry' store'
          (rest.1 + 1, rest.2.1, rest.2.2)
      | (_, fsm', _, store') => (1, fsm', store')

/-!
## QA failure path (`qa.py` lines 171-197) and the in-memory `runs` table
-/

/-- `fsm.current_state.value`: the string value of the enum member. -/
def RunState.value (s : RunState) : String :=
  match s with
  | RunState.INIT => "INIT"
  | RunState.PLOT_GENERATION => "PLOT_GENERATION"
  | RunState.PLOT_REVIEW => "PLOT_REVIEW"
  | RunState.ASSET_GENERATION => "ASSET_GENERATION"
  | RunState.ASSET_REVIEW => "ASSET_REVIEW"
  | RunState.LAYOUT_REVIEW => "LAYOUT_REVIEW"
  | RunState.RENDERING => "RENDERING"
  | RunState.QA => "QA"
  | RunState.END => "END"
  | RunState.FAILED => "FAILED"

/-- The fields of one entry of the FastAPI-process `runs` dict (`main.py`
line 228) that the QA failure path touches. -/
structure RunEntry where
  state : String
  progress : Rat
  artifacts : List (String × MetaVal)
deriving DecidableEq, Repr

/-- `qa.py` lines 179-197: on a failed QA verdict, call `fsm.retry_from_qa()`
and, when it succeeds and the run is present in the in-process `runs` table,
reset its progress and bump `qa_retry_count` inside `runs[...]["artifacts"]`.
Re-submitting the Plan task is an unimplemented TODO (lines 195-197). -/
def qaOnFail (fsm : FSM) (store : Store) (entry : Option RunEntry) :
    FSM × Store × Option RunEntry :=
  let r := fsm.retry_from_qa
  let store' := applyWrites store r.storeWrites
  if r.ok then
    let entry' :=
      match entry with
      | some e =>
          some { e with
            state := r.fsm.current_state.value
            progress := 0
            artifacts := dictSet e.artifacts "qa_retry_count"
              (MetaVal.int (metaNat e.artifacts "qa_retry_count" + 1)) }
      | none => none
    (r.fsm, store', entry')
  else (r.fsm, store', entry)

/-!
## Recovery task (`recover.py` lines 12-95)
-/

/-- `recover_task`, `recover.py` lines 12-95: returns the Python outcome
(`.error` = the task raised, after the `except` branch of lines 93-95
re-raises) together with the Redis writes performed.  Execution order: a
missing FSM raises `ValueError` (line 37); otherwise line 40 first evaluates
the attribute `RunState.RECOVER`, which does not exist, so an
`AttributeError` is raised before `transition_to` is even called.  The
remaining branches are dead code: were the attribute present, line 45 would
next call the undefined method `fsm.get_retry_state()`. -/
def recover_task (fsmOpt : Option FSM) :
    Except String (FSM × String) × List (String × FSM) :=
  match fsmOpt with
  | none => (Except.error "ValueError: FSM not found for run", [])
  | some fsm =>
      match runStateAttr "RECOVER" with
      | none =>
          (Except.error
            "AttributeError: type object RunState has no attribute RECOVER", [])
      | some recoverState =>
          let r := fsm.transition_to recoverState
          if ¬ r.ok then (Except.ok (fsm, "Cannot enter recovery"), [])
          else
            (Except.error
              "AttributeError: FSM object has no attribute get_retry_state",
              r.storeWrites)

/-!
## Dictionary lemmas
-/

theorem dictGet_dictSet_self {α : Type} (d : List (String × α)) (k : String)
    (v : α) : dictGet (dictSet d k v) k = some v := by
  induction d with
  | nil => simp [dictSet, dictGet]
  | cons kv rest ih =>
      obtain ⟨k', v'⟩ := kv
      by_cases h : k' = k
      · simp [dictSet, dictGet, h]
      · simp [dictSet, dictGet, h, ih]

theorem dictGet_dictSet_ne {α : Type} (d : List (String × α)) (k k' : String)
    (v : α) (hne : k ≠ k') : dictGet (dictSet d k v) k' = dictGet d k' := by
  induction d with
  | nil => simp [dictSet, dictGet, hne]
  | cons kv rest ih =>
      obtain ⟨k0, v0⟩ := kv
      by_cases h : k0 = k
      · subst h
        simp [dictSet, dictGet, hne]
      · simp [dictSet, dictGet, h, ih]

/-!
## C3 / C4: transition-table discipline
-/

/-- C3: for every FSM state and every target not in
`TRANSITIONS[current_state]`, `transition_to` returns `False` and leaves the
FSM record (state, history, metadata) untouched, performing no Redis write. -/
theorem C3_invalid_transition_fails_closed (fsm : FSM) (target : RunState)
    (guard : Option Bool) (md : Option Metadata)
    (h : target ∉ TRANSITIONS fsm.current_state) :
    fsm.transition_to target guard md =
      { ok := false, fsm := fsm, storeWrites := [] } := by
  unfold FSM.transition_to
  simp [FSM.can_transition_to, h]

/-- Witness for C3 at a concrete input: `END` has no outgoing edges. -/
theorem C3_invalid_transition_witness :
    (FSM.mkRun "w3" RunState.END).transition_to RunState.QA none none =
      { ok := false, fsm := FSM.mkRun "w3" RunState.END, storeWrites := [] } :=
  C3_invalid_transition_fails_closed _ _ _ _ (by decide)

/-- C4: for every edge of the transition table, a guardless `transition_to`
returns `True`, sets `current_state` to the target, appends the target to
`history`, and synchronously writes the new snapshot to the state store, so
that a subsequent `get_fsm` load from that store returns exactly the new
snapshot. -/
theorem C4_valid_transition_persists (fsm : FSM) (target : RunState)
    (store : Store) (registry : Registry)
    (h : target ∈ TRANSITIONS fsm.current_state) :
    (transitionToStore fsm target none none store).1 = true ∧
    (transitionToStore fsm target none none store).2.1.current_state = target ∧
    (transitionToStore fsm target none none store).2.1.history =
      fsm.history ++ [target] ∧
    (get_fsm fsm.run_id
        (Except.ok (dictGet (transitionToStore fsm target none none store).2.2
          ("fsm:" ++ fsm.run_id)))
        registry).1 =
      some (transitionToStore fsm target none none store).2.1 := by
  unfold transitionToStore FSM.transition_to
  simp [FSM.can_transition_to, h, applyWrites, setexStore, get_fsm,
    dictGet_dictSet_self]

/-- Witness for C4 at a concrete input: the `INIT → PLOT_GENERATION` edge. -/
theorem C4_valid_transition_witness :
    ((transitionToStore (FSM.mkRun "w4" RunState.INIT) RunState.PLOT_GENERATION
        none none []).1 = true ∧
      (transitionToStore (FSM.mkRun "w4" RunState.INIT) RunState.PLOT_GENERATION
        none none []).2.1.current_state = RunState.PLOT_GENERATION ∧
      (transitionToStore (FSM.mkRun "w4" RunState.INIT) RunState.PLOT_GENERATION
        none none []).2.1.history =
        (FSM.mkRun "w4" RunState.INIT).history ++ [RunState.PLOT_GENERATION] ∧
      (get_fsm (FSM.mkRun "w4" RunState.INIT).run_id
        (Except.ok (dictGet (transitionToStore (FSM.mkRun "w4" RunState.INIT)
          RunState.PLOT_GENERATION none none []).2.2
          ("fsm:" ++ (FSM.mkRun "w4" RunState.INIT).run_id)))
        []).1 =
        some (transitionToStore (FSM.mkRun "w4" RunState.INIT)
          RunState.PLOT_GENERATION none none []).2.1) :=
  C4_valid_transition_persists (FSM.mkRun "w4" RunState.INIT)
    RunState.PLOT_GENERATION [] [] (by decide)

/-!
## C9: the recovery task can never complete a recovery
-/

/-- C9: the names `recover_task` needs — `RunState.RECOVER`,
`FSM.get_retry_state`, `RunState.PLOT_PLANNING` — do not exist in the FSM
module, so for every input (a registered run or not) the task raises before
performing any FSM transition: it returns an error and performs no state
store write, leaving the run's persisted state unchanged. -/
theorem C9_recover_always_raises (fsmOpt : Option FSM) :
    (∃ msg, (recover_task fsmOpt).1 = Except.error msg) ∧
    (recover_task fsmOpt).2 = [] ∧
    runStateAttr "RECOVER" = none ∧
    runStateAttr "PLOT_PLANNING" = none ∧
    "get_retry_state" ∉ fsmMethods := by
  refine ⟨?_, ?_, rfl, rfl, by decide⟩
  · cases fsmOpt with
    | none => exact ⟨_, rfl⟩
    | some fsm => exact ⟨_, rfl⟩
  · cases fsmOpt with
    | none => rfl
    | some fsm => rfl

/-!
## C8: load ordering of `get_fsm`
-/

/-- A concrete FSM for the C8 counterexample. -/
def c8CachedFsm : FSM := FSM.mkRun "r8" RunState.RENDERING

/-- C8 counterexample: the claim that the process-local cache is returned
*only* when the store read raises (so that a successful store read always
returns exactly the store's answer) is false: with a reachable store that
holds no snapshot for `"r8"` and a cache that does, `get_fsm` returns the
cached FSM although no error was raised. -/
theorem C8_counterexample :
    ¬ (∀ (run_id : String) (res : Option FSM) (registry : Registry),
        (get_fsm run_id (Except.ok res) registry).1 = res) := by
  intro h
  have h8 := h "r8" none [("r8", c8CachedFsm)]
  simp [get_fsm, dictGet] at h8

/-- C8 amended: `get_fsm` always attempts the store read first — a
successful read that yields a snapshot returns it (and refreshes the cache)
without consulting the cache; the process-local cache is consulted whenever
the read yields no data, which happens both when the read raises *and* when
the store simply holds no snapshot for the run; `None` is returned when
neither source holds the run. -/
theorem C8_amended_load_order (run_id : String)
    (redisRead : Except String (Option FSM)) (registry : Registry) :
    get_fsm run_id redisRead registry =
      match redisRead with
      | Except.ok (some fsm) => (some fsm, dictSet registry run_id fsm)
      | _ => (dictGet registry run_id, registry) := by
  cases redisRead with
  | ok o =>
      cases o with
      | none =>
          show (match dictGet registry run_id with
            | some fsm => (some fsm, registry)
            | none => ((none : Option FSM), registry)) = _
          cases dictGet registry run_id <;> rfl
      | some fsm => rfl
  | error e =>
      show (match dictGet registry run_id with
        | some fsm => (some fsm, registry)
        | none => ((none : Option FSM), registry)) = _
      cases dictGet registry run_id <;> rfl

/-!
## C10: history invariants
-/

/-- The FSM-mutating public operations (`transition_to`, `fail`,
`retry_from_qa`). -/
inductive FsmOp where
  | trans (target : RunState) (guard : Option Bool) (md : Option Metadata)
  | failOp (msg : String)
  | retryQa
deriving DecidableEq, Repr

/-- Apply one operation's effect on the in-memory FSM. -/
def applyOp (fsm : FSM) (op : FsmOp) : FSM :=
  match op with
  | FsmOp.trans t g m => (fsm.transition_to t g m).fsm
  | FsmOp.failOp msg => (fsm.fail msg).fsm
  | FsmOp.retryQa => fsm.retry_from_qa.fsm

/-- Apply a sequence of operations. -/
def applyOps (fsm : FSM) (ops : List FsmOp) : FSM :=
  ops.foldl applyOp fsm

/-- Every `transition_to` either leaves the FSM record untouched or appends
exactly the new current state to the history. -/
theorem transition_to_history_cases (fsm : FSM) (t : RunState)
    (g : Option Bool) (m : Option Metadata) :
    (fsm.transition_to t g m).fsm = fsm ∨
    ((fsm.transition_to t g m).fsm.current_state = t ∧
      (fsm.transition_to t g m).fsm.history = fsm.history ++ [t]) := by
  unfold FSM.transition_to
  by_cases h : fsm.can_transition_to t
  · by_cases hg : g = some false
    · left; simp [h, hg]
    · right; simp [h, hg]
  · left; simp [h]

/-- Every operation either leaves the FSM untouched or appends exactly the
new current state to the history. -/
theorem applyOp_cases (fsm : FSM) (op : FsmOp) :
    applyOp fsm op = fsm ∨
    ((applyOp fsm op).history =
      fsm.history ++ [(applyOp fsm op).current_state]) := by
  cases op with
  | trans t g m =>
      rcases transition_to_history_cases fsm t g m with h | ⟨hs, hh⟩
      · left; exact h
      · right; simpa [applyOp, hs] using hh
  | failOp msg =>
      rcases transition_to_history_cases fsm RunState.FAILED none
        (some [("error", MetaVal.str msg)]) with h | ⟨hs, hh⟩
      · left; simpa [applyOp, FSM.fail] using h
      · right; simp only [applyOp, FSM.fail]
        rw [hs]; exact hh
  | retryQa =>
      unfold applyOp FSM.retry_from_qa
      by_cases hq : fsm.current_state ≠ RunState.QA
      · left; simp [hq]
      · simp only [hq, if_false]
        rcases transition_to_history_cases fsm RunState.PLOT_GENERATION none
          (some [("retry_reason", MetaVal.str "QA failed, regenerating plot")])
          with h | ⟨hs, hh⟩
        · left; simpa using h
        · right
          rw [hs]; exact hh

/-- The history only grows: one step. -/
theorem history_prefix_applyOp (fsm : FSM) (op : FsmOp) :
    fsm.history <+: (applyOp fsm op).history := by
  rcases applyOp_cases fsm op with h | h
  · rw [h]
  · rw [h]; exact ⟨_, rfl⟩

/-- The history only grows: any sequence. -/
theorem history_prefix_applyOps (fsm : FSM) (ops : List FsmOp) :
    fsm.history <+: (applyOps fsm ops).history := by
  induction ops generalizing fsm with
  | nil => exact List.prefix_refl _
  | cons op rest ih =>
      exact (history_prefix_applyOp fsm op).trans (ih (applyOp fsm op))

/-- The running invariant: non-empty history whose last element is the
current state. -/
def HistoryInv (fsm : FSM) : Prop :=
  fsm.history ≠ [] ∧ fsm.history.getLast? = some fsm.current_state

theorem historyInv_applyOp (fsm : FSM) (op : FsmOp) (h : HistoryInv fsm) :
    HistoryInv (applyOp fsm op) := by
  rcases applyOp_cases fsm op with he | he
  · rwa [he]
  · constructor
    · rw [he]; simp
    · rw [he]; simp

theorem historyInv_applyOps (fsm : FSM) (ops : List FsmOp)
    (h : HistoryInv fsm) : HistoryInv (applyOps fsm ops) := by
  induction ops generalizing fsm with
  | nil => exact h
  | cons op rest ih => exact ih (applyOp fsm op) (historyInv_applyOp fsm op h)

/-- `foldl` splits at `take`/`drop`. -/
theorem applyOps_take_drop (fsm : FSM) (ops : List FsmOp) (n : Nat) :
    applyOps fsm ops = applyOps (applyOps fsm (ops.take n)) (ops.drop n) := by
  unfold applyOps
  rw [← List.foldl_append, List.take_append_drop]

/-- C10: starting from a fresh FSM, after any sequence of `transition_to`,
`fail` and `retry_from_qa` calls the history is non-empty, starts with the
initial state, ends with the current state, contains every intermediate
history as a prefix (it never shrinks and is never reordered), and each
individual operation appends at most one state — exactly the new current
state when it succeeds. -/
theorem C10_history_invariant (run_id : String) (init : RunState)
    (ops : List FsmOp) :
    (applyOps (FSM.mkRun run_id init) ops).history ≠ [] ∧
    (applyOps (FSM.mkRun run_id init) ops).history.head? = some init ∧
    (applyOps (FSM.mkRun run_id init) ops).history.getLast? =
      some (applyOps (FSM.mkRun run_id init) ops).current_state ∧
    (∀ n : Nat, (applyOps (FSM.mkRun run_id init) (ops.take n)).history <+:
      (applyOps (FSM.mkRun run_id init) ops).history) ∧
    (∀ (f : FSM) (op : FsmOp), applyOp f op = f ∨
      (applyOp f op).history = f.history ++ [(applyOp f op).current_state]) := by
  have hinv : HistoryInv (applyOps (FSM.mkRun run_id init) ops) :=
    historyInv_applyOps _ _ ⟨by simp [FSM.mkRun], by simp [FSM.mkRun]⟩
  have hpre : (FSM.mkRun run_id init).history <+:
      (applyOps (FSM.mkRun run_id init) ops).history :=
    history_prefix_applyOps _ _
  refine ⟨hinv.1, ?_, hinv.2, ?_, applyOp_cases⟩
  · rcases hpre with ⟨t, ht⟩
    rw [← ht]
    simp [FSM.mkRun]
  · intro n
    rw [applyOps_take_drop (FSM.mkRun run_id init) ops n]
    exact history_prefix_applyOps _ _

/-!
## C2: QA failure path has no retry budget
-/

/-- A run parked in `QA` for the C2 counterexample. -/
def c2Fsm : FSM :=
  { run_id := "r2", current_state := RunState.QA,
    history := [RunState.INIT, RunState.QA], metadata := [] }

/-- Concrete run entry whose QA retry counter is already huge. -/
def c2Entry : RunEntry :=
  { state := "QA", progress := 0,
    artifacts := [("qa_retry_count", MetaVal.int 1000000)] }

/-- C2 counterexample: there is no retry budget: for *every* candidate bound
`m`, a run whose QA-retry counter already reached `m` is still sent back to
`PLOT_GENERATION` rather than to `FAILED` by the QA failure path — witnessed
at the concrete run `c2Fsm` with the counter set to exactly `m`; and the
counter the code does bump lives in the run entry's artifacts, not in the
FSM metadata, which holds no `qa_retry_count` key afterwards. -/
theorem C2_counterexample :
    (¬ ∃ max_qa_retries : Nat, ∀ e : RunEntry,
        max_qa_retries ≤ metaNat e.artifacts "qa_retry_count" →
        (qaOnFail c2Fsm [] (some e)).1.current_state = RunState.FAILED) ∧
    (qaOnFail c2Fsm [] (some c2Entry)).1.current_state =
      RunState.PLOT_GENERATION ∧
    dictGet (qaOnFail c2Fsm [] (some c2Entry)).1.metadata "qa_retry_count" =
      none := by
  refine ⟨?_, by decide, by decide⟩
  rintro ⟨m, hm⟩
  have hfail := hm
    { state := "QA", progress := 0, artifacts := [("qa_retry_count", MetaVal.int m)] }
    (by simp [metaNat, dictGet])
  have hgen : (qaOnFail c2Fsm [] (some
      { state := "QA", progress := 0,
        artifacts := [("qa_retry_count", MetaVal.int m)] })).1.current_state =
      RunState.PLOT_GENERATION := rfl
  rw [hgen] at hfail
  cases hfail

/-- C2 amended: on a failed QA verdict the orchestrator *unconditionally*
transitions the run from `QA` back to `PLOT_GENERATION` (there is no
`max_qa_retries` bound and the run is never failed for repeated QA
failures); it records `retry_reason` in the FSM metadata and increments a
`qa_retry_count` counter kept in the in-process run entry's artifacts, not
in the FSM metadata; resubmitting the Plan stage is left as an
unimplemented TODO. -/
theorem C2_amended_qa_retry_unbounded (fsm : FSM) (store : Store)
    (e : RunEntry) (h : fsm.current_state = RunState.QA) :
    (qaOnFail fsm store (some e)).1.current_state = RunState.PLOT_GENERATION ∧
    (qaOnFail fsm store (some e)).1.current_state ≠ RunState.FAILED ∧
    (qaOnFail fsm store (some e)).2.2 = some
      { e with
        state := "PLOT_GENERATION"
        progress := 0
        artifacts := dictSet e.artifacts "qa_retry_count"
          (MetaVal.int (metaNat e.artifacts "qa_retry_count" + 1)) } ∧
    dictGet (qaOnFail fsm store (some e)).1.metadata "retry_reason" =
      some (MetaVal.str "QA failed, regenerating plot") := by
  have hcan : fsm.can_transition_to RunState.PLOT_GENERATION = true := by
    simp [FSM.can_transition_to, h, TRANSITIONS]
  unfold qaOnFail FSM.retry_from_qa FSM.transition_to
  simp [h, hcan, FSM.can_transition_to, TRANSITIONS, RunState.value,
    dictUpdate, dictGet_dictSet_self]

/-- Witness for C2's amended theorem at a concrete run parked in QA. -/
theorem C2_amended_witness :
    (qaOnFail c2Fsm [] (some c2Entry)).1.current_state =
      RunState.PLOT_GENERATION ∧
    (qaOnFail c2Fsm [] (some c2Entry)).1.current_state ≠ RunState.FAILED ∧
    (qaOnFail c2Fsm [] (some c2Entry)).2.2 = some
      { c2Entry with
        state := "PLOT_GENERATION"
        progress := 0
        artifacts := dictSet c2Entry.artifacts "qa_retry_count"
          (MetaVal.int (metaNat c2Entry.artifacts "qa_retry_count" + 1)) } ∧
    dictGet (qaOnFail c2Fsm [] (some c2Entry)).1.metadata "retry_reason" =
      some (MetaVal.str "QA failed, regenerating plot") :=
  C2_amended_qa_retry_unbounded c2Fsm [] c2Entry rfl

/-!
## C5: validation retry bound of the Plan stage
-/

/-- One failing attempt under budget: bump the metadata counter, persist via
`register_fsm`, raise a Celery retry. -/
theorem planValidationStep_retry_eq (errs : List String) (fsm : FSM)
    (registry : Registry) (store : Store) (herr : ¬ errs = [])
    (hrc : metaNat fsm.metadata "plot_retry_count" < plan_max_retries) :
    planValidationStep errs fsm registry store =
      (PlanOutcome.retryTask,
        { fsm with metadata := dictSet fsm.metadata "plot_retry_count" (MetaVal.int (metaNat fsm.metadata "plot_retry_count" + 1)) },
        dictSet registry fsm.run_id
          { fsm with metadata := dictSet fsm.metadata "plot_retry_count" (MetaVal.int (metaNat fsm.metadata "plot_retry_count" + 1)) },
        setexStore store ("fsm:" ++ fsm.run_id)
          { fsm with metadata := dictSet fsm.metadata "plot_retry_count" (MetaVal.int (metaNat fsm.metadata "plot_retry_count" + 1)) }) := by
  unfold planValidationStep register_fsm
  simp [herr, hrc]

/-- One failing attempt over budget: `ValueError`, caught by the generic
handler, which calls `fsm.fail`. -/
theorem planValidationStep_fail_eq (errs : List String) (fsm : FSM)
    (registry : Registry) (store : Store) (herr : ¬ errs = [])
    (hrc : ¬ metaNat fsm.metadata "plot_retry_count" < plan_max_retries) :
    planValidationStep errs fsm registry store =
      (PlanOutcome.failed,
        (fsm.fail ("Plot validation failed after " ++ toString plan_max_retries ++
          " attempts: " ++ String.intercalate ", " errs)).fsm,
        registry,
        applyWrites store (fsm.fail ("Plot validation failed after " ++
          toString plan_max_retries ++ " attempts: " ++
          String.intercalate ", " errs)).storeWrites) := by
  unfold planValidationStep
  simp [herr, hrc]

theorem planRunFailing_succ_retry (errs : List String) (fuel : Nat) (fsm : FSM)
    (registry : Registry) (store : Store) (f' : FSM) (r' : Registry)
    (s' : Store)
    (hstep : planValidationStep errs fsm registry store =
      (PlanOutcome.retryTask, f', r', s')) :
    planRunFailing errs (fuel + 1) fsm registry store =
      ((planRunFailing errs fuel f' r' s').1 + 1,
        (planRunFailing errs fuel f' r' s').2.1,
        (planRunFailing errs fuel f' r' s').2.2) := by
  simp [planRunFailing, hstep]

theorem planRunFailing_succ_fail (errs : List String) (fuel : Nat) (fsm : FSM)
    (registry : Registry) (store : Store) (f' : FSM) (r' : Registry)
    (s' : Store)
    (hstep : planValidationStep errs fsm registry store =
      (PlanOutcome.failed, f', r', s')) :
    planRunFailing errs (fuel + 1) fsm registry store = (1, f', s') := by
  simp [planRunFailing, hstep]

/-- `fail` reaches `FAILED` whenever the edge exists. -/
theorem fail_sets_failed (fsm : FSM) (msg : String)
    (h : RunState.FAILED ∈ TRANSITIONS fsm.current_state) :
    (fsm.fail msg).fsm.current_state = RunState.FAILED := by
  unfold FSM.fail FSM.transition_to
  simp [FSM.can_transition_to, h]

/-- C5: with a validator that always fails (a fixed non-empty error list),
starting from a run in `PLOT_GENERATION` whose metadata has no
`plot_retry_count` yet, the Plan task body executes exactly
`max_retries + 1` (= 3) times — the counter persisting in FSM metadata
across Celery retries — and on the final attempt the run transitions to
`FAILED` instead of retrying again. -/
theorem C5_plan_retry_bound (errs : List String) (fsm : FSM)
    (registry : Registry) (store : Store) (fuel : Nat) (herr : errs ≠ [])
    (hstate : fsm.current_state = RunState.PLOT_GENERATION)
    (hmeta : dictGet fsm.metadata "plot_retry_count" = none)
    (hfuel : plan_max_retries + 1 ≤ fuel) :
    (planRunFailing errs fuel fsm registry store).1 = plan_max_retries + 1 ∧
    (planRunFailing errs fuel fsm registry store).2.1.current_state =
      RunState.FAILED := by
  obtain ⟨k, rfl⟩ := Nat.exists_eq_add_of_le' hfuel
  have h0 : metaNat fsm.metadata "plot_retry_count" = 0 := by
    simp [metaNat, hmeta]
  have hrc0 : metaNat fsm.metadata "plot_retry_count" < plan_max_retries := by
    rw [h0]; decide
  have hs1 := planValidationStep_retry_eq errs fsm registry store herr hrc0
  rw [h0] at hs1
  set fsm1 : FSM :=
    { fsm with metadata := dictSet fsm.metadata "plot_retry_count" (MetaVal.int 1) } with hfsm1
  have h1 : metaNat fsm1.metadata "plot_retry_count" = 1 := by
    simp [hfsm1, metaNat, dictGet_dictSet_self]
  have hrc1 : metaNat fsm1.metadata "plot_retry_count" < plan_max_retries := by
    rw [h1]; decide
  have hs2 := planValidationStep_retry_eq errs fsm1
    (dictSet registry fsm.run_id fsm1)
    (setexStore store ("fsm:" ++ fsm.run_id) fsm1) herr hrc1
  rw [h1] at hs2
  set fsm2 : FSM :=
    { fsm1 with metadata := dictSet fsm1.metadata "plot_retry_count" (MetaVal.int 2) } with hfsm2
  have h2 : metaNat fsm2.metadata "plot_retry_count" = 2 := by
    simp [hfsm2, metaNat, dictGet_dictSet_self]
  have hrc2 : ¬ metaNat fsm2.metadata "plot_retry_count" < plan_max_retries := by
    rw [h2]; decide
  have hs3 := planValidationStep_fail_eq errs fsm2
    (dictSet (dictSet registry fsm.run_id fsm1) fsm1.run_id fsm2)
    (setexStore (setexStore store ("fsm:" ++ fsm.run_id) fsm1)
      ("fsm:" ++ fsm1.run_id) fsm2) herr hrc2
  have hstate2 : fsm2.current_state = RunState.PLOT_GENERATION := hstate
  have hrun :
      planRunFailing errs (k + 2 + 1) fsm registry store =
        ((planRunFailing errs (k + 1 + 1) fsm1
            (dictSet registry fsm.run_id fsm1)
            (setexStore store ("fsm:" ++ fsm.run_id) fsm1)).1 + 1,
          (planRunFailing errs (k + 1 + 1) fsm1
            (dictSet registry fsm.run_id fsm1)
            (setexStore store ("fsm:" ++ fsm.run_id) fsm1)).2.1,
          (planRunFailing errs (k + 1 + 1) fsm1
            (dictSet registry fsm.run_id fsm1)
            (setexStore store ("fsm:" ++ fsm.run_id) fsm1)).2.2) :=
    planRunFailing_succ_retry errs (k + 1 + 1) fsm registry store fsm1 _ _ hs1
  have hrun2 :
      planRunFailing errs (k + 1 + 1) fsm1
          (dictSet registry fsm.run_id fsm1)
          (setexStore store ("fsm:" ++ fsm.run_id) fsm1) =
        ((planRunFailing errs (k + 1) fsm2
            (dictSet (dictSet registry fsm.run_id fsm1) fsm1.run_id fsm2)
            (setexStore (setexStore store ("fsm:" ++ fsm.run_id) fsm1)
              ("fsm:" ++ fsm1.run_id) fsm2)).1 + 1,
          (planRunFailing errs (k + 1) fsm2
            (dictSet (dictSet registry fsm.run_id fsm1) fsm1.run_id fsm2)
            (setexStore (setexStore store ("fsm:" ++ fsm.run_id) fsm1)
              ("fsm:" ++ fsm1.run_id) fsm2)).2.1,
          (planRunFailing errs (k + 1) fsm2
            (dictSet (dictSet registry fsm.run_id fsm1) fsm1.run_id fsm2)
            (setexStore (setexStore store ("fsm:" ++ fsm.run_id) fsm1)
              ("fsm:" ++ fsm1.run_id) fsm2)).2.2) :=
    planRunFailing_succ_retry errs (k + 1) fsm1 _ _ fsm2 _ _ hs2
  have hrun3 := planRunFailing_succ_fail errs k fsm2
    (dictSet (dictSet registry fsm.run_id fsm1) fsm1.run_id fsm2)
    (setexStore (setexStore store ("fsm:" ++ fsm.run_id) fsm1)
      ("fsm:" ++ fsm1.run_id) fsm2) _ _ _ hs3
  rw [show k + (plan_max_retries + 1) = k + 2 + 1 from rfl, hrun, hrun2, hrun3]
  refine ⟨rfl, ?_⟩
  exact fail_sets_failed fsm2 _ (by rw [hstate2]; decide)

/-- A concrete run in `PLOT_GENERATION` for the C5 witness. -/
def c5Fsm : FSM :=
  { run_id := "w5", current_state := RunState.PLOT_GENERATION,
    history := [RunState.INIT, RunState.PLOT_GENERATION], metadata := [] }

/-- Witness for C5 at a concrete always-failing validator output. -/
theorem C5_plan_retry_bound_witness :
    (planRunFailing ["plot.json에 scenes가 없거나 비어있음"] 3 c5Fsm [] []).1 =
      plan_max_retries + 1 ∧
    (planRunFailing ["plot.json에 scenes가 없거나 비어있음"] 3 c5Fsm []
      []).2.1.current_state = RunState.FAILED :=
  C5_plan_retry_bound ["plot.json에 scenes가 없거나 비어있음"] c5Fsm [] [] 3
    (by decide) rfl rfl (by decide)

/-!
## C6: an over-length scene text is a blocking validation error
-/

theorem append_ne_nil_left {α : Type} {a b : List α} (h : a ≠ []) :
    a ++ b ≠ [] := by
  intro heq
  exact h (List.append_eq_nil.mp heq).1

theorem append_ne_nil_right {α : Type} {a b : List α} (h : b ≠ []) :
    a ++ b ≠ [] := by
  intro heq
  exact h (List.append_eq_nil.mp heq).2

/-- An over-length scene anywhere in the list makes the Validation-7c error
list non-empty, whatever the enumeration offset. -/
theorem textLen_enumFrom_ne_nil (l : List PlotScene) (sc : PlotScene) (n : Nat)
    (hmem : sc ∈ l) (hlen : 50 < (cleanedText sc).length) :
    ((l.enumFrom n).map fun p => textLengthErrorsOfScene p.1 p.2).flatten ≠ [] := by
  induction l generalizing n with
  | nil => cases hmem
  | cons hd tl ih =>
      rcases List.mem_cons.mp hmem with rfl | hmem'
      · have hhd : textLengthErrorsOfScene n sc ≠ [] := by
          unfold textLengthErrorsOfScene
          simp [hlen]
        simp only [List.enumFrom, List.map_cons, List.flatten_cons]
        intro heq
        exact hhd (List.append_eq_nil.mp heq).1
      · have htl := ih (n + 1) hmem'
        simp only [List.enumFrom, List.map_cons, List.flatten_cons]
        intro heq
        exact htl (List.append_eq_nil.mp heq).2

/-- C6 corrected: a scene whose cleaned text exceeds the 50-character cap
produces a validation error like any other finding; since the verdict passes
only when the error list is empty, the over-length finding by itself makes
validation fail, and (while the metadata retry counter is under budget) the
Plan task takes the Celery retry branch. -/
theorem C6_overlength_text_blocks (plot : PlotData) (layout : Layout)
    (chars : Option CharactersData) (spec : RunSpec) (sc : PlotScene)
    (fsm : FSM) (registry : Registry) (store : Store)
    (hmem : sc ∈ plot.scenes) (hlen : 50 < (cleanedText sc).length)
    (hrc : metaNat fsm.metadata "plot_retry_count" < plan_max_retries) :
    validate_plot_json plot layout chars spec ≠ [] ∧
    (planValidationStep (validate_plot_json plot layout chars spec) fsm
      registry store).1 = PlanOutcome.retryTask := by
  have hsc : plot.scenes ≠ [] := by
    rintro hnil; rw [hnil] at hmem; cases hmem
  have hne : ((plot.scenes.enumFrom 0).map
      fun p => textLengthErrorsOfScene p.1 p.2).flatten ≠ [] :=
    textLen_enumFrom_ne_nil plot.scenes sc 0 hmem hlen
  have hval : validate_plot_json plot layout chars spec ≠ [] := by
    unfold validate_plot_json
    rw [if_neg hsc]
    apply append_ne_nil_left
    apply append_ne_nil_right
    exact hne
  refine ⟨hval, ?_⟩
  unfold planValidationStep
  rw [if_neg hval, if_pos hrc]

/-- Concrete inputs for the C6 counterexample: a general-mode plot whose
*only* validation finding is one 51-character scene text. -/
def c6Spec : RunSpec := { mode := "general", num_cuts := 3, prompt := "cats" }

/-- 51 characters. -/
def c6LongText : String := "aaaaaaaaaaaaaaaaaaaaaaaaaaaaaaaaaaaaaaaaaaaaaaaaaaa"

def c6Plot : PlotData :=
  { scenes :=
      [{ scene_id := some "scene_1", text := some c6LongText,
         image_prompt := some (some "a cat on a sofa"), background_img := none,
         char_id_keys := [] },
       { scene_id := some "scene_2", text := some "first line",
         image_prompt := some (some "a cat outside"), background_img := none,
         char_id_keys := [] },
       { scene_id := some "scene_3", text := some "second line",
         image_prompt := some (some "a cat sleeping"), background_img := none,
         char_id_keys := [] }] }

def c6Layout : Layout :=
  { scenes :=
      [{ scene_id := "scene_1", duration_ms := 5000,
         images := [{ slot_id := "slot_1", image_url := none }], texts := [], sfx := [] },
       { scene_id := "scene_2", duration_ms := 5000,
         images := [{ slot_id := "slot_1", image_url := none }], texts := [], sfx := [] },
       { scene_id := "scene_3", duration_ms := 5000,
         images := [{ slot_id := "slot_1", image_url := none }], texts := [], sfx := [] }]
    global_bgm := none
    timeline := some { total_duration_ms := 15000 } }

def c6Fsm : FSM :=
  { run_id := "r6", current_state := RunState.PLOT_GENERATION,
    history := [RunState.INIT, RunState.PLOT_GENERATION], metadata := [] }

/-- C6 counterexample: on a script artifact whose only finding is one scene
text over the length cap, the validator returns that finding as a
(non-empty) error list — so `passed = (issues is empty)` is false, not true
as the claim states — and the Plan task takes the retry branch. -/
theorem C6_counterexample :
    validate_plot_json c6Plot c6Layout none c6Spec =
      ["scene_1: text 길이 초과 (51자, 권장 28자 이내)"] ∧
    validate_plot_json c6Plot c6Layout none c6Spec ≠ [] ∧
    (planValidationStep (validate_plot_json c6Plot c6Layout none c6Spec)
      c6Fsm [] []).1 = PlanOutcome.retryTask := by
  refine ⟨by decide, by decide, by decide⟩

/-- Witness for C6's corrected theorem at the same concrete inputs. -/
theorem C6_overlength_text_blocks_witness :
    validate_plot_json c6Plot c6Layout none c6Spec ≠ [] ∧
    (planValidationStep (validate_plot_json c6Plot c6Layout none c6Spec)
      c6Fsm [] []).1 = PlanOutcome.retryTask :=
  C6_overlength_text_blocks c6Plot c6Layout none c6Spec
    { scene_id := some "scene_1", text := some c6LongText,
      image_prompt := some (some "a cat on a sofa"), background_img := none,
      char_id_keys := [] }
    c6Fsm [] [] (by decide) (by decide) (by decide)

/-!
## C7: fan-in merge is order-independent
-/

/-- Within one scene, the designer's image-slot update and the voice task's
text-line update touch disjoint fields and commute. -/
theorem updateScene_images_texts_comm (i : ImageResult) (v : VoiceResult)
    (s : Scene) :
    updateSceneTexts v (updateSceneImages i s) =
      updateSceneImages i (updateSceneTexts v s) := by
  unfold updateSceneImages updateSceneTexts
  by_cases h1 : s.scene_id = i.scene_id <;> by_cases h2 : s.scene_id = v.scene_id
  · simp only [if_pos h1, if_pos h2]
  · simp only [if_pos h1, if_neg h2]
  · simp only [if_neg h1, if_pos h2]
  · simp only [if_neg h1, if_neg h2]

/-- The three producers' updates touch disjoint parts of the layout:
image-slot updates commute with text-line updates. -/
theorem applyImage_applyVoice_comm (L : Layout) (i : ImageResult)
    (v : VoiceResult) :
    applyVoiceResult (applyImageResult L i) v =
      applyImageResult (applyVoiceResult L v) i := by
  unfold applyImageResult applyVoiceResult
  simp only [List.map_map]
  congr 1
  apply List.map_congr_left
  intro s _
  exact updateScene_images_texts_comm i v s

/-- Image-slot updates commute with the BGM update (which reads only the
timeline and writes only `global_bgm`). -/
theorem applyImage_applyAudio_comm (L : Layout) (i : ImageResult)
    (a : AudioResult) :
    applyAudioResult (applyImageResult L i) a =
      applyImageResult (applyAudioResult L a) i := by
  obtain ⟨scenes, gbgm, timeline⟩ := L
  unfold applyImageResult applyAudioResult
  by_cases hk : a.kind = "bgm"
  · cases gbgm <;> simp [hk]
  · simp [hk]

/-- Text-line updates commute with the BGM update. -/
theorem applyVoice_applyAudio_comm (L : Layout) (v : VoiceResult)
    (a : AudioResult) :
    applyAudioResult (applyVoiceResult L v) a =
      applyVoiceResult (applyAudioResult L a) v := by
  obtain ⟨scenes, gbgm, timeline⟩ := L
  unfold applyVoiceResult applyAudioResult
  by_cases hk : a.kind = "bgm"
  · cases gbgm <;> simp [hk]
  · simp [hk]

theorem foldl_comm_single {α β γ : Type} (f : α → β → α) (g : α → γ → α)
    (hcomm : ∀ z x y, g (f z x) y = f (g z y) x) (ds : List β) :
    ∀ (z : α) (y : γ), g (ds.foldl f z) y = ds.foldl f (g z y) := by
  induction ds with
  | nil => intro z y; rfl
  | cons d rest ih =>
      intro z y
      simp only [List.foldl_cons]
      rw [ih, hcomm]

theorem foldl_foldl_comm {α β γ : Type} (f : α → β → α) (g : α → γ → α)
    (hcomm : ∀ z x y, g (f z x) y = f (g z y) x) (vs : List γ) :
    ∀ (ds : List β) (z : α),
      vs.foldl g (ds.foldl f z) = ds.foldl f (vs.foldl g z) := by
  induction vs with
  | nil => intro ds z; rfl
  | cons v rest ih =>
      intro ds z
      simp only [List.foldl_cons]
      rw [foldl_comm_single f g hcomm ds z v, ih]

theorem asset_designer_voice_comm (z : Layout) (d : List ImageResult)
    (v : List VoiceResult) :
    applyAssetResult (applyAssetResult z (AssetResult.designer d))
        (AssetResult.voice v) =
      applyAssetResult (applyAssetResult z (AssetResult.voice v))
        (AssetResult.designer d) := by
  simp only [applyAssetResult]
  exact foldl_foldl_comm applyImageResult applyVoiceResult
    (fun z x y => applyImage_applyVoice_comm z x y) v d z

theorem asset_designer_composer_comm (z : Layout) (d : List ImageResult)
    (c : List AudioResult) :
    applyAssetResult (applyAssetResult z (AssetResult.designer d))
        (AssetResult.composer c) =
      applyAssetResult (applyAssetResult z (AssetResult.composer c))
        (AssetResult.designer d) := by
  simp only [applyAssetResult]
  exact foldl_foldl_comm applyImageResult applyAudioResult
    (fun z x y => applyImage_applyAudio_comm z x y) c d z

theorem asset_voice_composer_comm (z : Layout) (v : List VoiceResult)
    (c : List AudioResult) :
    applyAssetResult (applyAssetResult z (AssetResult.voice v))
        (AssetResult.composer c) =
      applyAssetResult (applyAssetResult z (AssetResult.composer c))
        (AssetResult.voice v) := by
  simp only [applyAssetResult]
  exact foldl_foldl_comm applyVoiceResult applyAudioResult
    (fun z x y => applyVoice_applyAudio_comm z x y) c v z

/-- C7: the fan-in merge is order-independent: applying the director's
update loop to any permutation of the three producer result records yields a
field-wise identical merged layout, because each producer's updates touch a
disjoint subset of the layout fields. -/
theorem C7_merge_order_independent (layout : Layout) (d : List ImageResult)
    (v : List VoiceResult) (c : List AudioResult) (l : List AssetResult)
    (hperm : l.Perm
      [AssetResult.designer d, AssetResult.voice v, AssetResult.composer c]) :
    directorMerge layout l =
      directorMerge layout
        [AssetResult.designer d, AssetResult.voice v, AssetResult.composer c] := by
  have hmem : ∀ x ∈ l, x = AssetResult.designer d ∨ x = AssetResult.voice v ∨
      x = AssetResult.composer c := by
    intro x hx
    have hx2 := hperm.subset hx
    simpa using hx2
  unfold directorMerge
  apply hperm.foldl_eq'
  intro x hx y hy z
  rcases hmem x hx with rfl | rfl | rfl <;> rcases hmem y hy with rfl | rfl | rfl
  · rfl
  · exact asset_designer_voice_comm z d v
  · exact asset_designer_composer_comm z d c
  · exact (asset_designer_voice_comm z d v).symm
  · rfl
  · exact asset_voice_composer_comm z v c
  · exact (asset_designer_composer_comm z d c).symm
  · exact (asset_voice_composer_comm z v c).symm
  · rfl

/-- Concrete data for the C7 witness. -/
def c7Layout : Layout :=
  { scenes :=
      [{ scene_id := "scene_1", duration_ms := 4000,
         images := [{ slot_id := "slot_1", image_url := none }],
         texts := [{ line_id := "line_1", char_id := "narration",
                     text := "hello there", audio_url := none, start_ms := 0 }],
         sfx := [] }]
    global_bgm := none
    timeline := some { total_duration_ms := 4000 } }

def c7Designer : List ImageResult :=
  [{ scene_id := "scene_1", slot_id := "slot_1",
     image_url := "app/data/outputs/r7/images/scene_1_slot_1.png" }]

def c7Voice : List VoiceResult :=
  [{ scene_id := "scene_1", line_id := "line_1",
     audio_url := "app/data/outputs/r7/audio/scene_1_line_1.mp3",
     audio_duration_ms := some 1800 }]

def c7Composer : List AudioResult :=
  [{ kind := "bgm", id := some "global_bgm",
     path := "app/data/outputs/r7/audio/global_bgm.mp3" }]

/-- Witness for C7 at a concrete reversed arrival order. -/
theorem C7_merge_order_independent_witness :
    ([AssetResult.composer c7Composer, AssetResult.voice c7Voice,
        AssetResult.designer c7Designer].Perm
      [AssetResult.designer c7Designer, AssetResult.voice c7Voice,
        AssetResult.composer c7Composer]) ∧
    directorMerge c7Layout
        [AssetResult.composer c7Composer, AssetResult.voice c7Voice,
          AssetResult.designer c7Designer] =
      directorMerge c7Layout
        [AssetResult.designer c7Designer, AssetResult.voice c7Voice,
          AssetResult.composer c7Composer] :=
  ⟨by decide,
    C7_merge_order_independent c7Layout c7Designer c7Voice c7Composer _
      (by decide)⟩

/-!
## C1: the producer tasks write the shared layout artifact
-/

/-- Concrete inputs for C1. -/
def c1Layout : Layout :=
  { scenes :=
      [{ scene_id := "scene_1", duration_ms := 5000,
         images := [{ slot_id := "slot_1", image_url := none }],
         texts := [{ line_id := "line_1", char_id := "narration",
                     text := "a quiet morning", audio_url := none, start_ms := 0 }],
         sfx := [] }]
    global_bgm := none
    timeline := some { total_duration_ms := 8000 } }

def c1Path : String := "app/data/outputs/r1/layout.json"

def c1Fs : FileSys := [(c1Path, c1Layout)]

def c1VoiceEnv : VoiceGenEnv :=
  { genSpeech := fun _ output_filename => output_filename
    measureDuration := fun _ => some 2000 }

def c1DesignerEnv : DesignerEnv :=
  { resolveImage := fun scene_id slot_id =>
      "app/data/outputs/r1/images/" ++ scene_id ++ "_" ++ slot_id ++ ".png" }

/-- C1 counterexample: all three producer tasks write the shared layout file.
On a concrete run directory, after each of `voice_task`, `composer_task` and
`designer_task` the content stored at `json_path` differs from the layout
that was there before — so the barrier continuation is *not* the only writer
of the merged layout. -/
theorem C1_counterexample :
    dictGet (fsAfter (voice_task c1VoiceEnv "r1" c1Path c1Fs) c1Fs) c1Path ≠
      some c1Layout ∧
    dictGet (fsAfter (composer_task "app/data/outputs/r1/audio/global_bgm.mp3"
      "ambient" "r1" c1Path c1Fs) c1Fs) c1Path ≠ some c1Layout ∧
    dictGet (fsAfter (designer_task c1DesignerEnv "r1" c1Path c1Fs) c1Fs)
      c1Path ≠ some c1Layout := by
  refine ⟨by decide, by decide, by decide⟩

/-- C1 amended: each of the three producer tasks performs a read of the
shared layout at `json_path`, applies its own updates, and performs exactly
one file write — of the updated layout, back to `json_path` — in addition to
returning its self-contained result record; the barrier continuation
(`director_task`) then re-applies the returned result records to the layout
it loads and writes the merged `layout.json` once more, making its write the
final one. -/
theorem C1_amended_producers_write (env : VoiceGenEnv) (denv : DesignerEnv)
    (bgm_path music_genre run_id json_path : String) (fs : FileSys)
    (layout : Layout) (results : List AssetResult)
    (h : dictGet fs json_path = some layout) :
    voice_task env run_id json_path fs =
      Except.ok (dictSet fs json_path (voiceLayoutUpdate env run_id layout).1,
        (voiceLayoutUpdate env run_id layout).2) ∧
    composer_task bgm_path music_genre run_id json_path fs =
      Except.ok (dictSet fs json_path
          (composerLayoutUpdate bgm_path music_genre layout).1,
        (composerLayoutUpdate bgm_path music_genre layout).2) ∧
    designer_task denv run_id json_path fs =
      Except.ok (dictSet fs json_path (designerLayoutUpdate denv layout).1,
        (designerLayoutUpdate denv layout).2) ∧
    director_task_merge results json_path fs =
      Except.ok (dictSet fs json_path (directorMerge layout results)) := by
  unfold voice_task composer_task designer_task director_task_merge
  rw [h]
  exact ⟨rfl, rfl, rfl, rfl⟩

/-- Witness for C1's amended theorem at the concrete run directory. -/
theorem C1_amended_producers_write_witness :
    voice_task c1VoiceEnv "r1" c1Path c1Fs =
      Except.ok (dictSet c1Fs c1Path
          (voiceLayoutUpdate c1VoiceEnv "r1" c1Layout).1,
        (voiceLayoutUpdate c1VoiceEnv "r1" c1Layout).2) ∧
    composer_task "app/data/outputs/r1/audio/global_bgm.mp3" "ambient" "r1"
        c1Path c1Fs =
      Except.ok (dictSet c1Fs c1Path
          (composerLayoutUpdate "app/data/outputs/r1/audio/global_bgm.mp3"
            "ambient" c1Layout).1,
        (composerLayoutUpdate "app/data/outputs/r1/audio/global_bgm.mp3"
          "ambient" c1Layout).2) ∧
    designer_task c1DesignerEnv "r1" c1Path c1Fs =
      Except.ok (dictSet c1Fs c1Path
          (designerLayoutUpdate c1DesignerEnv c1Layout).1,
        (designerLayoutUpdate c1DesignerEnv c1Layout).2) ∧
    director_task_merge [] c1Path c1Fs =
      Except.ok (dictSet c1Fs c1Path (directorMerge c1Layout [])) :=
  C1_amended_producers_write c1VoiceEnv c1DesignerEnv
    "app/data/outputs/r1/audio/global_bgm.mp3" "ambient" "r1" c1Path c1Fs
    c1Layout [] (by decide)
